import Mathlib

/-!
Shallow embedding of the relay-bam-plugin decision core (Rust) in Lean 4.

Conventions of the embedding:
* Machine integers (u64/u32/u16/u8/i64/i32) are modelled as `Nat`/`Int`;
  where the Rust code can overflow (release-mode wrap-around), the wrap is
  written explicitly as `% u64Size`.
* Raw pointer/length pairs are modelled as `Option (List _)`: `none` is a
  null pointer, `some l` is a reachable buffer whose contents are `l`.
  Count fields that the code derives from the buffer via
  `slice::from_raw_parts` are modelled as the list length; the bundle-level
  `transaction_count` is kept as an explicit field because the code reads
  and checks it independently of the pointer.
* `f32`/`f64` arithmetic is modelled over `ℚ` with exact values: the f32
  literal `0.001` is the rational `8589935 / 2^33` (its exact binary value),
  and the `as u64` float-to-integer cast is the saturating truncation
  `f64AsU64`.
* The wall clock (`SystemTime::now`) is passed in as an explicit `now`
  argument.
-/

/-- The modulus of wrapping u64 arithmetic, 2 to the 64. -/
def u64Size : Nat := 2 ^ 64

/-- Rust float-to-u64 cast `as u64`: saturating truncation toward zero. -/
def f64AsU64 (q : ℚ) : Nat :=
  if q < 0 then 0 else min (Int.toNat ⌊q⌋) (u64Size - 1)

/-! ## Data model (src/types.rs) -/

/-- A 32-byte key / hash / id, modelled as its byte list. -/
abbrev Bytes := List Nat

/-- Embeds `iter().all(|&b| b == 0)` on a byte buffer. -/
def allZero (bs : Bytes) : Bool := bs.all (fun b => b = 0)

structure MessageHeader where
  num_required_signatures : Nat
  num_readonly_signed_accounts : Nat
  num_readonly_unsigned_accounts : Nat
deriving Repr, DecidableEq

structure CompiledInstruction where
  program_id_index : Nat
  /-- Embeds `accounts` pointer with `accounts_count` elements; `none` = null. -/
  accounts : Option (List Nat)
  /-- Embeds `data` pointer with `data_len` bytes; `none` = null. -/
  data : Option Bytes
deriving Repr, DecidableEq

/-- Embeds `accounts_count`, derived from the reachable buffer. -/
def CompiledInstruction.accounts_count (i : CompiledInstruction) : Nat :=
  (i.accounts.getD []).length

/-- Embeds `data_len`, derived from the reachable buffer. -/
def CompiledInstruction.data_len (i : CompiledInstruction) : Nat :=
  (i.data.getD []).length

structure TransactionMessage where
  header : MessageHeader
  account_keys : Option (List Bytes)
  recent_blockhash : Bytes
  instructions : Option (List CompiledInstruction)
deriving Repr, DecidableEq

/-- Embeds `account_keys_count`, derived from the reachable buffer. -/
def TransactionMessage.account_keys_count (m : TransactionMessage) : Nat :=
  (m.account_keys.getD []).length

/-- Embeds `instructions_count`, derived from the reachable buffer. -/
def TransactionMessage.instructions_count (m : TransactionMessage) : Nat :=
  (m.instructions.getD []).length

structure Transaction where
  signatures : Option (List Bytes)
  signature_count : Nat
  message : TransactionMessage
  priority_fee : Nat
  compute_limit : Nat
deriving Repr, DecidableEq

structure BundleMetadata where
  slot : Nat
  timestamp : Nat
  leader_pubkey : Bytes
  plugin_fees : Nat
  tip_amount : Nat
deriving Repr, DecidableEq

structure Attestation where
  version : Nat
  node_id : Bytes
  bundle_hash : Bytes
  timestamp : Nat
  signature : Bytes
  tee_report : Option Bytes
deriving Repr, DecidableEq

/-- Embeds `tee_report_len`, derived from the reachable buffer. -/
def Attestation.tee_report_len (a : Attestation) : Nat :=
  (a.tee_report.getD []).length

structure TransactionBundle where
  transaction_count : Nat
  transactions : Option (List Transaction)
  metadata : BundleMetadata
  attestation : Option Attestation
deriving Repr, DecidableEq

/-- A reachable bundle: the transaction buffer really holds
`transaction_count` elements, as `slice::from_raw_parts` assumes. -/
def WFBundle (b : TransactionBundle) : Prop :=
  ∀ l, b.transactions = some l → l.length = b.transaction_count

/-- The transaction slice the code sees (empty when the pointer is null). -/
def bundleTxs (b : TransactionBundle) : List Transaction :=
  b.transactions.getD []

-- Result codes (src/types.rs), as i32 values.
def SUCCESS : Int := 0
def ERROR_NULL_POINTER : Int := -1
def ERROR_INVALID_BUNDLE : Int := -2
def ERROR_PROCESSING_FAILED : Int := -3
def ERROR_INSUFFICIENT_FEE : Int := -4
def ERROR_INVALID_STATE : Int := -5
def ERROR_ORACLE_STALE_PRICE : Int := -100
def ERROR_ORACLE_INVALID_ACCOUNT : Int := -101
def ERROR_ORACLE_NETWORK_FAILURE : Int := -102
def ERROR_ORACLE_PARSE_FAILURE : Int := -103
def ERROR_ORACLE_CACHE_MISS : Int := -104

/-- Modelled from the spec: the decision result code
InstitutionalComplianceViolation. The constant `ERROR_INSTITUTIONAL_COMPLIANCE`
is referenced by src/institutional.rs but its declaration is not under src/;
the spec only requires it to be a distinct member of the closed result-code
set, so a fresh negative value is chosen. -/
def ERROR_INSTITUTIONAL_COMPLIANCE : Int := -200

/-- Modelled from the spec: the decision result code
InstitutionalRiskLimitExceeded, likewise referenced but not declared under
src/; a fresh negative value distinct from every other code. -/
def ERROR_INSTITUTIONAL_RISK_LIMIT : Int := -201

structure PluginConfig where
  min_fee_lamports : Nat
  /-- f32 fraction, modelled by its exact rational value. -/
  fee_percentage : ℚ
  max_bundle_size : Nat
  enable_metrics : Bool
  enable_debug_logging : Bool
deriving Repr, DecidableEq

/-- Exact value of the f32 literal `0.001`. -/
def f32_0_001 : ℚ := (8589935 : ℚ) / 2 ^ 33

/-- Embeds `PluginConfig::default` (src/types.rs). -/
def PluginConfig.defaultConfig : PluginConfig :=
  { min_fee_lamports := 5000
    fee_percentage := f32_0_001
    max_bundle_size := 100
    enable_metrics := true
    enable_debug_logging := false }

structure PluginState where
  bundles_processed : Nat
  total_fees_collected : Nat
  average_processing_time_us : Nat
  last_error : Option String
  config : PluginConfig
deriving Repr, DecidableEq

/-- Embeds `PluginState::default` (src/types.rs). -/
def PluginState.defaultState : PluginState :=
  { bundles_processed := 0
    total_fees_collected := 0
    average_processing_time_us := 0
    last_error := none
    config := PluginConfig.defaultConfig }

/-! ## Validator (src/validation.rs) -/

/-- Embeds `validate_metadata`; `now` is the wall-clock unix time in seconds. -/
def validate_metadata (now : Int) (m : BundleMetadata) : Except String Unit :=
  if m.slot = 0 then .error "Invalid slot: 0"
  else if (now - (m.timestamp : Int)).natAbs > 300 then
    .error "Timestamp too far from current time"
  else if allZero m.leader_pubkey then .error "Invalid leader pubkey"
  else .ok ()

/-- Embeds `validate_attestation` on a non-null attestation pointer. -/
def validateAttestation (a : Attestation) : Except String Unit :=
  if a.version = 0 ∨ a.version > 10 then .error "Invalid attestation version"
  else if allZero a.node_id then .error "Invalid node ID"
  else if allZero a.bundle_hash then .error "Invalid bundle hash"
  else if a.tee_report.isSome ∧ a.tee_report_len = 0 then
    .error "Invalid TEE report length"
  else .ok ()

/-- Embeds `validate_message`. -/
def validate_message (msg : TransactionMessage) : Except String Unit :=
  if msg.header.num_required_signatures = 0 then .error "No required signatures"
  else if msg.header.num_required_signatures > msg.account_keys_count then
    .error "More required signatures than accounts"
  else if msg.account_keys_count = 0 then .error "No account keys"
  else if msg.account_keys.isNone then .error "Null account keys pointer"
  else if msg.instructions_count = 0 then .error "No instructions"
  else if msg.instructions.isNone then .error "Null instructions pointer"
  else if allZero msg.recent_blockhash then .error "Invalid blockhash"
  else .ok ()

/-- Embeds `validate_transaction`. -/
def validate_transaction (tx : Transaction) : Except String Unit :=
  if tx.signature_count = 0 then .error "No signatures"
  else if tx.signature_count > 8 then .error "Too many signatures"
  else if tx.signatures.isNone then .error "Null signatures pointer"
  else
    match validate_message tx.message with
    | .error e => .error e
    | .ok () =>
      if tx.compute_limit = 0 then .error "Zero compute limit"
      else if tx.compute_limit > 1400000 then .error "Compute limit exceeds maximum"
      else .ok ()

/-- The per-transaction loop of `validate_bundle`: first failure wins. -/
def validateTxList : List Transaction → Int
  | [] => SUCCESS
  | tx :: rest =>
    match validate_transaction tx with
    | .error _ => ERROR_INVALID_BUNDLE
    | .ok () => validateTxList rest

/-- Embeds `validate_bundle`. -/
def validate_bundle (now : Int) (b : TransactionBundle) : Int :=
  if b.transaction_count = 0 then ERROR_INVALID_BUNDLE
  else
    match b.transactions with
    | none => ERROR_NULL_POINTER
    | some txs =>
      match validate_metadata now b.metadata with
      | .error _ => ERROR_INVALID_BUNDLE
      | .ok () =>
        match b.attestation with
        | some a =>
          match validateAttestation a with
          | .error _ => ERROR_INVALID_BUNDLE
          | .ok () => validateTxList txs
        | none => validateTxList txs

/-! ## Fee engine (src/fees.rs) -/

/-- Embeds `calculate_total_priority_fees`: wrapping u64 sum over the slice. -/
def calculate_total_priority_fees (b : TransactionBundle) : Nat :=
  match b.transactions with
  | none => 0
  | some txs => txs.foldl (fun acc tx => (acc + tx.priority_fee) % u64Size) 0

/-- Embeds `calculate_compute_fee`: wrapping u64 sum of compute limits, / 1000. -/
def calculate_compute_fee (b : TransactionBundle) : Nat :=
  match b.transactions with
  | none => 0
  | some txs =>
    (txs.foldl (fun acc tx => (acc + tx.compute_limit) % u64Size) 0) / 1000

/-- Embeds `calculate_bundle_fee` on a non-null bundle; the configuration snapshot
read from `PLUGIN_STATE` is passed explicitly. -/
def calculate_bundle_fee (cfg : PluginConfig) (b : TransactionBundle) : Nat :=
  let base_fee := (cfg.min_fee_lamports * b.transaction_count) % u64Size
  let total_priority_fees := calculate_total_priority_fees b
  let percentage_fee := f64AsU64 ((total_priority_fees : ℚ) * cfg.fee_percentage)
  let compute_fee := calculate_compute_fee b
  max base_fee (max percentage_fee compute_fee)

/-! ## Bundle processing (src/processing.rs) -/

/-- Embeds `process_bundle` on a non-null bundle, with the shared `PLUGIN_STATE`
passed and returned explicitly (the lock is modelled as always acquired;
`apply_bundle_optimizations` is read-only analysis that always returns
SUCCESS). -/
def process_bundle (now : Int) (b : TransactionBundle) (st : PluginState) :
    Int × PluginState :=
  let v := validate_bundle now b
  if v ≠ SUCCESS then (v, st)
  else if b.transaction_count > st.config.max_bundle_size then
    (ERROR_INVALID_BUNDLE, st)
  else
    let required_fee := calculate_bundle_fee st.config b
    if b.metadata.plugin_fees < required_fee then (ERROR_INSUFFICIENT_FEE, st)
    else
      (SUCCESS,
        { st with
          bundles_processed := (st.bundles_processed + 1) % u64Size
          total_fees_collected :=
            (st.total_fees_collected + b.metadata.plugin_fees) % u64Size })

/-! ## Oracle (src/oracle.rs) -/

structure PriceData where
  price : Int
  conf : Nat
  expo : Int
  publish_time : Int
deriving Repr, DecidableEq

structure PriceInjectionPoint where
  transaction_index : Nat
  instruction_index : Nat
  price_account : Bytes
  required_price_id : Bytes
deriving Repr, DecidableEq

/-- Embeds `is_price_update_instruction`: non-null data of length at least 8 whose
leading 8 bytes are one of the two Pyth discriminators. -/
def is_price_update_instruction (inst : CompiledInstruction) : Bool :=
  match inst.data with
  | none => false
  | some d =>
    decide (d.length ≥ 8) &&
      (decide (d.take 8 = [1, 0, 0, 0, 0, 0, 0, 0]) ||
       decide (d.take 8 = [2, 0, 0, 0, 0, 0, 0, 0]))

/-- Embeds `extract_price_account`: the account key referenced by the first
account index of the instruction, when everything is reachable and in range. -/
def extract_price_account (inst : CompiledInstruction)
    (msg : TransactionMessage) : Option Bytes :=
  match inst.accounts, msg.account_keys with
  | some idxs, some keys =>
    if idxs.isEmpty ∨ keys.isEmpty then none
    else
      match idxs with
      | [] => none
      | i :: _ => keys.get? i
  | _, _ => none

/-- Embeds `derive_price_id_from_account`: identity on the account key. -/
def derive_price_id_from_account (price_account : Bytes) : Bytes :=
  price_account

/-- The inner instruction walk of `extract_price_injection_points` for one
transaction. -/
def injectionPointsOfTx (tx_idx : Nat) (tx : Transaction) :
    List PriceInjectionPoint :=
  match tx.message.instructions with
  | none => []
  | some insts =>
    (insts.enum.filterMap fun p =>
      if is_price_update_instruction p.2 then
        match extract_price_account p.2 tx.message with
        | some acc =>
          some { transaction_index := tx_idx
                 instruction_index := p.1
                 price_account := acc
                 required_price_id := derive_price_id_from_account acc }
        | none => none
      else none)

/-- Embeds `extract_price_injection_points`. -/
def extract_price_injection_points (b : TransactionBundle) :
    List PriceInjectionPoint :=
  match b.transactions with
  | none => []
  | some txs =>
    if b.transaction_count = 0 then []
    else (txs.enum.map fun p => injectionPointsOfTx p.1 p.2).flatten

/-- The exact rational value of `confidence_ratio` in
`calculate_price_confidence_score`: 100 when price is zero, otherwise
`conf / |price| * 100` (a percentage). -/
def confidenceRatio (p : PriceData) : ℚ :=
  if p.price = 0 then 100 else ((p.conf : ℚ) / |(p.price : ℚ)|) * 100

/-- Embeds `calculate_price_confidence_score` (src/oracle.rs, lines 238-268). -/
def calculate_price_confidence_score (p : PriceData) (current_time : Int) : Nat :=
  let age_seconds : Int := current_time - p.publish_time
  let ratio := confidenceRatio p
  let age_score : Nat :=
    if age_seconds < 10 then 100
    else if age_seconds < 30 then 80
    else if age_seconds < 60 then 50
    else 20
  let conf_score : Nat :=
    if ratio < 1 / 10 then 100
    else if ratio < 1 / 2 then 80
    else if ratio < 1 then 60
    else 30
  min ((age_score + conf_score) / 2) 100

/-! ## Pyth client (src/pyth_client.rs) -/

/-- The oracle environment a single evaluation sees: the result of the
`fetch_oracle_prices` refresh, the cache contents at lookup time, the wall
clock, and `max_price_age_seconds` from the oracle configuration
(default 30). -/
structure OracleEnv where
  fetchResult : Int
  cache : Bytes → Option PriceData
  now : Int
  max_price_age_seconds : Nat

/-- Embeds `is_price_stale` (src/pyth_client.rs): the price is older than
`max_price_age_seconds`. -/
def is_price_stale (env : OracleEnv) (p : PriceData) : Bool :=
  env.now - p.publish_time > (env.max_price_age_seconds : Int)

/-- Embeds `get_oracle_price` (src/pyth_client.rs, lines 293-310). -/
def get_oracle_price (env : OracleEnv) (price_id : Bytes) :
    Except Int PriceData :=
  match env.cache price_id with
  | some p => if is_price_stale env p then .error ERROR_ORACLE_STALE_PRICE else .ok p
  | none => .error ERROR_ORACLE_CACHE_MISS

/-! ## Oracle processing (src/oracle_processing.rs) -/

/-- Embeds `calculate_oracle_processing_fee` (lines 158-173), with wrapping u64
arithmetic made explicit. -/
def calculate_oracle_processing_fee (pts : List PriceInjectionPoint) : Nat :=
  let base_total := (pts.length * 10000) % u64Size
  let complexity_fee :=
    if pts.length > 5 then ((pts.length - 5) * 2000) % u64Size else 0
  (base_total + complexity_fee) % u64Size

/-- Step 3 of `process_oracle_enabled_bundle`: the first error over the
injection points — a resolver error propagates, a confidence score below 30
becomes ERROR_ORACLE_STALE_PRICE. -/
def checkInjectionPoints (env : OracleEnv) :
    List PriceInjectionPoint → Option Int
  | [] => none
  | p :: rest =>
    match get_oracle_price env p.required_price_id with
    | .error e => some e
    | .ok pd =>
      if calculate_price_confidence_score pd env.now < 30 then
        some ERROR_ORACLE_STALE_PRICE
      else checkInjectionPoints env rest

/-- Embeds `inject_oracle_prices` (src/pyth_client.rs): re-resolves every point and
propagates the first resolver error; low confidence only warns. -/
def injectOraclePrices (env : OracleEnv) :
    List PriceInjectionPoint → Option Int
  | [] => none
  | p :: rest =>
    match get_oracle_price env p.required_price_id with
    | .error e => some e
    | .ok _ => injectOraclePrices env rest

/-- Embeds `process_oracle_enabled_bundle` (src/oracle_processing.rs, lines 48-156)
on a validated, non-null bundle. `apply_oracle_optimizations` is read-only
analysis that always returns SUCCESS. -/
def process_oracle_enabled_bundle (env : OracleEnv) (b : TransactionBundle)
    (st : PluginState) : Int × PluginState :=
  let pts := extract_price_injection_points b
  if pts.isEmpty then process_bundle env.now b st
  else if env.fetchResult ≠ SUCCESS then (env.fetchResult, st)
  else
    match checkInjectionPoints env pts with
    | some e => (e, st)
    | none =>
      let base_fee := calculate_bundle_fee st.config b
      let oracle_fee := calculate_oracle_processing_fee pts
      let total_required_fee := (base_fee + oracle_fee) % u64Size
      if b.metadata.plugin_fees < total_required_fee then
        (ERROR_INSUFFICIENT_FEE, st)
      else
        match injectOraclePrices env pts with
        | some e => (e, st)
        | none =>
          (SUCCESS,
            { st with
              bundles_processed := (st.bundles_processed + 1) % u64Size
              total_fees_collected :=
                (st.total_fees_collected + b.metadata.plugin_fees) % u64Size })

/-- Embeds `get_oracle_fee_estimate` (src/oracle_processing.rs, lines 326-338) on a
non-null bundle, wrapping u64 addition made explicit. -/
def get_oracle_fee_estimate (cfg : PluginConfig) (b : TransactionBundle) : Nat :=
  let pts := extract_price_injection_points b
  let base_fee := calculate_bundle_fee cfg b
  let oracle_fee := calculate_oracle_processing_fee pts
  (base_fee + oracle_fee) % u64Size

/-! ## Metrics (src/metrics.rs) -/

/-- Embeds `update_processing_metrics`: exponential moving average of the latency
and the last-error marker; the counter and fee fields are untouched here.
The f64 smoothing constants 0.1 and 0.9 are modelled as exact rationals and
the final `as u64` cast as saturating truncation. `errTimestamp` stands for
the formatted wall-clock message stored on failure. -/
def update_processing_metrics (processing_time_us : Nat) (success : Bool)
    (errTimestamp : String) (st : PluginState) : PluginState :=
  if !st.config.enable_metrics then st
  else
    let new_avg : ℚ :=
      (1 / 10) * (processing_time_us : ℚ) +
        (9 / 10) * (st.average_processing_time_us : ℚ)
    let st1 := { st with average_processing_time_us := f64AsU64 new_avg }
    if !success then { st1 with last_error := some errTimestamp } else st1

/-- Embeds `process_bundle_forwarding` (src/lib.rs): the V1 wrapper that runs
`process_bundle` and then always updates the metrics, on a non-null
bundle. -/
def process_bundle_forwarding (now : Int) (processing_time_us : Nat)
    (errTimestamp : String) (b : TransactionBundle) (st : PluginState) :
    Int × PluginState :=
  let r := process_bundle now b st
  (r.1, update_processing_metrics processing_time_us (r.1 = SUCCESS)
    errTimestamp r.2)

/-! ## Institutional sequencer (src/institutional.rs) -/

structure RiskParameters where
  max_position_size : Nat
  max_daily_volume : Nat
  var_limit : Nat
deriving Repr, DecidableEq

structure ComplianceFlags where
  kyc_required : Bool
  aml_screening : Bool
  jurisdiction_restrictions : Nat
deriving Repr, DecidableEq

structure InstitutionalConfig where
  institution_id : Bytes
  risk_limits : RiskParameters
  compliance_requirements : ComplianceFlags
  cross_chain_enabled : Bool
deriving Repr, DecidableEq

structure InstitutionalSequencer where
  market_maker_priority : Bool
  cross_chain_enabled : Bool
  compliance_enabled : Bool
deriving Repr, DecidableEq

/-- Embeds `InstitutionalSequencer::new`. -/
def InstitutionalSequencer.new (cfg : InstitutionalConfig) :
    InstitutionalSequencer :=
  { market_maker_priority := true
    cross_chain_enabled := cfg.cross_chain_enabled
    compliance_enabled := cfg.compliance_requirements.kyc_required }

/-- Embeds `get_default_institutional_config`. -/
def get_default_institutional_config : InstitutionalConfig :=
  { institution_id := List.replicate 32 42
    risk_limits :=
      { max_position_size := 1000000000000
        max_daily_volume := 10000000000000
        var_limit := 500 }
    compliance_requirements :=
      { kyc_required := true
        aml_screening := true
        jurisdiction_restrictions := 0 }
    cross_chain_enabled := true }

/-- Embeds `validate_compliance` (src/institutional.rs, lines 74-95). -/
def validate_compliance (b : TransactionBundle) : Except Int Unit :=
  if b.transactions.isNone ∨ b.transaction_count = 0 then .ok ()
  else if b.transaction_count > 50 then .error ERROR_INSTITUTIONAL_COMPLIANCE
  else if b.metadata.plugin_fees < 20000 then .error ERROR_INSUFFICIENT_FEE
  else .ok ()

/-- The wrapping accumulation `total_estimated_value += priority_fee * 1000`
of `apply_risk_limits`. -/
def riskNotional (txs : List Transaction) : Nat :=
  txs.foldl (fun acc tx => (acc + (tx.priority_fee * 1000) % u64Size) % u64Size) 0

/-- Embeds `apply_risk_limits` (src/institutional.rs, lines 97-126). -/
def apply_risk_limits (b : TransactionBundle) : Except Int Unit :=
  if b.transactions.isNone ∨ b.transaction_count = 0 then .ok ()
  else
    if riskNotional (bundleTxs b) > 1000000000000 then
      .error ERROR_INSTITUTIONAL_RISK_LIMIT
    else .ok ()

/-- Embeds `sequence_institutional_bundle` (src/institutional.rs, lines 21-45):
market-maker prioritization never rejects, compliance runs only when
enabled, then risk limits. -/
def sequence_institutional_bundle (seq : InstitutionalSequencer)
    (b : TransactionBundle) : Int :=
  let afterCompliance : Except Int Unit :=
    if seq.compliance_enabled then validate_compliance b else .ok ()
  match afterCompliance with
  | .error e => e
  | .ok () =>
    match apply_risk_limits b with
    | .error e => e
    | .ok () => SUCCESS

/-! ## V2/V3 pipeline entry points (src/oracle_processing.rs, src/institutional.rs, src/lib.rs) -/

/-- Embeds `process_oracle_bundle` (src/oracle_processing.rs, lines 21-45)
for the oracle-enabled build on a non-null bundle: V1 validation first, then
the oracle pipeline. -/
def process_oracle_bundle (env : OracleEnv) (b : TransactionBundle)
    (st : PluginState) : Int × PluginState :=
  let v := validate_bundle env.now b
  if v ≠ SUCCESS then (v, st)
  else process_oracle_enabled_bundle env b st

/-- Embeds `process_institutional_bundle` (src/institutional.rs, lines
256-307) for the oracle-and-institutional build on a non-null bundle: the
V2 oracle pipeline runs first (updating the shared state on its own
success), then the institutional sequencer over the default institutional
configuration, then arbitrage detection (no state effect), and finally a
second counter-and-fees update. -/
def process_institutional_bundle (env : OracleEnv) (b : TransactionBundle)
    (st : PluginState) : Int × PluginState :=
  let r := process_oracle_bundle env b st
  if r.1 ≠ SUCCESS then r
  else
    let seq := InstitutionalSequencer.new get_default_institutional_config
    let ir := sequence_institutional_bundle seq b
    if ir ≠ SUCCESS then (ir, r.2)
    else
      (SUCCESS,
        { r.2 with
          bundles_processed := (r.2.bundles_processed + 1) % u64Size
          total_fees_collected :=
            (r.2.total_fees_collected + b.metadata.plugin_fees) % u64Size })

/-- Embeds `process_bundle_v3` (src/lib.rs, lines 104-130) for the
institutional build on a non-null bundle: institutional processing followed
by the metrics update. -/
def process_bundle_v3 (env : OracleEnv) (t : Nat) (e : String)
    (b : TransactionBundle) (st : PluginState) : Int × PluginState :=
  let r := process_institutional_bundle env b st
  (r.1, update_processing_metrics t (r.1 = SUCCESS) e r.2)

/-! ## Concrete fixtures used by the scenario theorems -/

/-- A minimal valid message: one signer, three accounts, one plain transfer
instruction (its 4 data bytes are no price-update discriminator). -/
def msg1 : TransactionMessage :=
  { header := ⟨1, 0, 1⟩
    account_keys := some [[1], [2], [3]]
    recent_blockhash := [1]
    instructions := some [⟨0, some [0, 1], some [1, 0, 0, 0]⟩] }

/-- Concrete scenario 1 transaction: priority_fee 5000, compute_limit
200000. -/
def tx1 : Transaction :=
  { signatures := some [[0]], signature_count := 1, message := msg1,
    priority_fee := 5000, compute_limit := 200000 }

/-- Concrete scenario 1 metadata: plugin_fees 15000, evaluated at
wall-clock 1000. -/
def meta1 : BundleMetadata :=
  { slot := 100000, timestamp := 1000, leader_pubkey := [1],
    plugin_fees := 15000, tip_amount := 5000 }

/-- Concrete scenario 1 bundle: one transaction, no injection points. -/
def bundle1 : TransactionBundle := ⟨1, some [tx1], meta1, none⟩

/-- A structurally valid bundle of 101 copies of `tx1` offering zero fee:
over the default `max_bundle_size` of 100. -/
def bundle101 : TransactionBundle :=
  ⟨101, some (List.replicate 101 tx1), { meta1 with plugin_fees := 0 }, none⟩

/-- A bundle with `transaction_count = 0`: always rejected by validation. -/
def emptyBundle : TransactionBundle := ⟨0, some [], meta1, none⟩

/-- Message holding one price-update instruction (discriminator
`[1,0,0,0,0,0,0,0]`) whose first account index resolves to key `[7]`. -/
def oMsg : TransactionMessage :=
  { header := ⟨1, 0, 1⟩
    account_keys := some [[7]]
    recent_blockhash := [1]
    instructions := some [⟨0, some [0], some [1, 0, 0, 0, 0, 0, 0, 0]⟩] }

/-- Transaction carrying the price-update instruction. -/
def oTx : Transaction :=
  { signatures := some [[0]], signature_count := 1, message := oMsg,
    priority_fee := 5000, compute_limit := 200000 }

/-- Oracle bundle with exactly one injection point and plugin_fees 20000. -/
def oBundle : TransactionBundle :=
  ⟨1, some [oTx], { meta1 with plugin_fees := 20000 }, none⟩

/-- Price published 5 seconds before wall-clock 1000, confidence ratio
1000 / 2000000 = 0.05 percent. -/
def pGood : PriceData := ⟨2000000, 1000, 0, 995⟩

/-- Same price but published 300 seconds before wall-clock 1000. -/
def pOld : PriceData := ⟨2000000, 1000, 0, 700⟩

/-- Oracle environment resolving feed `[7]` to `pGood`, default
max_price_age_seconds 30. -/
def envGood : OracleEnv :=
  ⟨SUCCESS, fun id => if id = [7] then some pGood else none, 1000, 30⟩

/-- Oracle environment resolving feed `[7]` to `pOld`. -/
def envOld : OracleEnv :=
  ⟨SUCCESS, fun id => if id = [7] then some pOld else none, 1000, 30⟩

/-- Oracle bundle offering one lamport less than the tier-2 required fee
of 15000. -/
def oBundleLow : TransactionBundle :=
  ⟨1, some [oTx], { meta1 with plugin_fees := 14999 }, none⟩

/-- A valid bundle of two transactions (used against a max_bundle_size
of 1). -/
def bundle2 : TransactionBundle := ⟨2, some [tx1, tx1], meta1, none⟩

/-- Default state with max_bundle_size lowered to 1. -/
def smallState : PluginState :=
  { PluginState.defaultState with
    config := { PluginConfig.defaultConfig with max_bundle_size := 1 } }

/-- A transaction whose compute limit exceeds 1,400,000 (scenario 3). -/
def txOverCompute : Transaction := { tx1 with compute_limit := 2000000 }

/-- Bundle containing `txOverCompute`. -/
def badComputeBundle : TransactionBundle :=
  ⟨1, some [txOverCompute], meta1, none⟩

/-- A transaction sitting exactly on the inclusive compute-limit boundary. -/
def tx14 : Transaction := { tx1 with compute_limit := 1400000 }

/-- Institutional bundle with 60 transactions (concrete scenario 5). -/
def b60 : TransactionBundle :=
  ⟨60, some (List.replicate 60 tx1), { meta1 with plugin_fees := 25000 }, none⟩

/-- Institutional bundle below the 20000-lamport institutional floor. -/
def bLowInstFee : TransactionBundle :=
  ⟨10, some (List.replicate 10 tx1), { meta1 with plugin_fees := 19999 }, none⟩

/-- The confidence score exactly as claim C4 words it: the interval score
judges the unscaled ratio confidence/|price| against percent thresholds,
price = 0 is treated as interval score 100, and the two scores are
averaged. Written from the claim for comparison against
`calculate_price_confidence_score`. -/
def claimC4Score (p : PriceData) (t : Int) : Nat :=
  let age := t - p.publish_time
  let age_score : Nat :=
    if age < 10 then 100 else if age < 30 then 80 else if age < 60 then 50
    else 20
  let interval_score : Nat :=
    if p.price = 0 then 100
    else if (p.conf : ℚ) / |(p.price : ℚ)| < 1 / 1000 then 100
    else if (p.conf : ℚ) / |(p.price : ℚ)| < 5 / 1000 then 80
    else if (p.conf : ℚ) / |(p.price : ℚ)| < 1 / 100 then 60
    else 30
  (age_score + interval_score) / 2

/-- The claim C4 formula amended as the code forces: price = 0 makes the
confidence ratio 100 percent, so the interval score is 30, not 100. -/
def claimC4AmendedScore (p : PriceData) (t : Int) : Nat :=
  let age := t - p.publish_time
  let age_score : Nat :=
    if age < 10 then 100 else if age < 30 then 80 else if age < 60 then 50
    else 20
  let interval_score : Nat :=
    if p.price = 0 then 30
    else if (p.conf : ℚ) / |(p.price : ℚ)| < 1 / 1000 then 100
    else if (p.conf : ℚ) / |(p.price : ℚ)| < 5 / 1000 then 80
    else if (p.conf : ℚ) / |(p.price : ℚ)| < 1 / 100 then 60
    else 30
  (age_score + interval_score) / 2

/-! ## Helper lemmas -/

/-- A wrapping u64 fold equals the plain sum while no wrap occurs. -/
theorem foldlWrap_eq_sum {α : Type} (f : α → Nat) :
    ∀ (l : List α) (acc : Nat), acc + (l.map f).sum < u64Size →
      l.foldl (fun a x => (a + f x) % u64Size) acc = acc + (l.map f).sum
  | [], acc, _ => by simp
  | x :: xs, acc, h => by
    simp only [List.map_cons, List.sum_cons] at h
    have h1 : acc + f x < u64Size := by omega
    simp only [List.foldl_cons, Nat.mod_eq_of_lt h1]
    rw [foldlWrap_eq_sum f xs (acc + f x) (by omega)]
    simp only [List.map_cons, List.sum_cons]
    omega

/-- A wrapping u64 fold stays below 2^64. -/
theorem foldlWrap_lt {α : Type} (g : Nat → α → Nat)
    (hg : ∀ a x, g a x < u64Size) :
    ∀ (l : List α) (acc : Nat), acc < u64Size →
      l.foldl g acc < u64Size
  | [], _, h => h
  | x :: xs, acc, _ => by
    simpa using foldlWrap_lt g hg xs (g acc x) (hg acc x)

/-- Embeds `calculate_total_priority_fees` is the plain priority-fee sum when that
sum does not overflow. -/
theorem calculate_total_priority_fees_eq (b : TransactionBundle)
    (txs : List Transaction) (htx : b.transactions = some txs)
    (h : (txs.map Transaction.priority_fee).sum < u64Size) :
    calculate_total_priority_fees b = (txs.map Transaction.priority_fee).sum := by
  simp only [calculate_total_priority_fees, htx]
  simpa using foldlWrap_eq_sum Transaction.priority_fee txs 0 (by simpa using h)

/-- Embeds `calculate_compute_fee` is the plain compute-unit sum over 1000 when
that sum does not overflow. -/
theorem calculate_compute_fee_eq (b : TransactionBundle)
    (txs : List Transaction) (htx : b.transactions = some txs)
    (h : (txs.map Transaction.compute_limit).sum < u64Size) :
    calculate_compute_fee b = (txs.map Transaction.compute_limit).sum / 1000 := by
  simp only [calculate_compute_fee, htx]
  rw [show txs.foldl (fun acc tx => (acc + tx.compute_limit) % u64Size) 0 =
      0 + (txs.map Transaction.compute_limit).sum from
    foldlWrap_eq_sum Transaction.compute_limit txs 0 (by simpa using h)]
  simp


theorem validate_transaction_ok_compute (tx : Transaction)
    (h : validate_transaction tx = .ok ()) :
    tx.compute_limit ≠ 0 ∧ tx.compute_limit ≤ 1400000 := by
  unfold validate_transaction at h
  split_ifs at h with h1 h2 h3 h4 h5
  all_goals try (rcases hm : validate_message tx.message with e | u <;> rw [hm] at h)
  all_goals try cases u
  all_goals first
    | exact Except.noConfusion h
    | exact ⟨by omega, by omega⟩

theorem validateTxList_bad_compute :
    ∀ (l : List Transaction) (tx : Transaction), tx ∈ l →
      (tx.compute_limit = 0 ∨ tx.compute_limit > 1400000) →
      validateTxList l = ERROR_INVALID_BUNDLE
  | [], tx, hmem, _ => absurd hmem (List.not_mem_nil tx)
  | t :: rest, tx, hmem, hbad => by
    unfold validateTxList
    rcases hv : validate_transaction t with e | u
    · rfl
    · cases u
      rcases List.mem_cons.mp hmem with heq | htail
      · rcases validate_transaction_ok_compute t hv with ⟨hc1, hc2⟩
        rw [heq] at hbad
        omega
      · exact validateTxList_bad_compute rest tx htail hbad

theorem validateTxList_cases :
    ∀ l : List Transaction,
      validateTxList l = SUCCESS ∨ validateTxList l = ERROR_INVALID_BUNDLE
  | [] => Or.inl rfl
  | t :: rest => by
    unfold validateTxList
    rcases hv : validate_transaction t with e | u
    · exact Or.inr rfl
    · exact validateTxList_cases rest

theorem validate_bundle_cases (now : Int) (b : TransactionBundle) :
    validate_bundle now b = SUCCESS ∨ validate_bundle now b = ERROR_NULL_POINTER ∨
      validate_bundle now b = ERROR_INVALID_BUNDLE := by
  unfold validate_bundle
  split_ifs
  · exact Or.inr (Or.inr rfl)
  · split
    · exact Or.inr (Or.inl rfl)
    · split
      · exact Or.inr (Or.inr rfl)
      · split
        · split
          · exact Or.inr (Or.inr rfl)
          · rcases validateTxList_cases _ with h | h
            · exact Or.inl h
            · exact Or.inr (Or.inr h)
        · rcases validateTxList_cases _ with h | h
          · exact Or.inl h
          · exact Or.inr (Or.inr h)

theorem injectOraclePrices_of_check (env : OracleEnv) :
    ∀ pts : List PriceInjectionPoint,
      checkInjectionPoints env pts = none → injectOraclePrices env pts = none
  | [], _ => rfl
  | p :: rest, h => by
    unfold checkInjectionPoints at h
    rcases hg : get_oracle_price env p.required_price_id with e | pd <;> rw [hg] at h
    · exact absurd h (by simp)
    · have h2 : (if calculate_price_confidence_score pd env.now < 30 then
          some ERROR_ORACLE_STALE_PRICE else checkInjectionPoints env rest) = none := h
      split_ifs at h2 with hscore
      have h3 := injectOraclePrices_of_check env rest h2
      show injectOraclePrices env (p :: rest) = none
      unfold injectOraclePrices
      rw [hg]
      exact h3

theorem update_processing_metrics_preserves (t : Nat) (s : Bool) (e : String)
    (st : PluginState) :
    (update_processing_metrics t s e st).bundles_processed = st.bundles_processed ∧
    (update_processing_metrics t s e st).total_fees_collected = st.total_fees_collected ∧
    (update_processing_metrics t s e st).config = st.config := by
  unfold update_processing_metrics
  split_ifs <;> simp

/-! ## Shared lemmas about process_bundle state updates -/

/-- On accept, `process_bundle` bumps the counter and adds the offered fee
to the cumulative total; every reject path leaves the state untouched. -/
theorem process_bundle_state_update (now : Int) (b : TransactionBundle)
    (st : PluginState) :
    ((process_bundle now b st).1 = SUCCESS →
      (process_bundle now b st).2.bundles_processed =
        (st.bundles_processed + 1) % u64Size ∧
      (process_bundle now b st).2.total_fees_collected =
        (st.total_fees_collected + b.metadata.plugin_fees) % u64Size) ∧
    ((process_bundle now b st).1 ≠ SUCCESS → (process_bundle now b st).2 = st) := by
  simp only [process_bundle]
  split_ifs with c1 c2 c3 <;> constructor <;> intro h <;>
    simp_all [SUCCESS, ERROR_INVALID_BUNDLE, ERROR_INSUFFICIENT_FEE]

/-- C1: for every bundle and configuration snapshot (absent u64 overflow,
which the exact arithmetic of the claim presupposes), the tier-1 required fee
computed by `calculate_bundle_fee` equals
max(min_fee_per_tx × transaction_count,
    floor(total_priority_fees × fee_percentage),
    total_compute_units / 1000). Instantiated at concrete scenario 1 by the
witness, this yields max(5000, 5, 200) = 5000. -/
theorem calculate_bundle_fee_tier1_max (cfg : PluginConfig)
    (b : TransactionBundle) (txs : List Transaction)
    (htx : b.transactions = some txs)
    (hpct : 0 ≤ cfg.fee_percentage)
    (hbase : cfg.min_fee_lamports * b.transaction_count < u64Size)
    (hpf : (txs.map Transaction.priority_fee).sum < u64Size)
    (hcu : (txs.map Transaction.compute_limit).sum < u64Size)
    (hprod : ((txs.map Transaction.priority_fee).sum : ℚ) * cfg.fee_percentage <
      (u64Size : ℚ)) :
    calculate_bundle_fee cfg b =
      max (cfg.min_fee_lamports * b.transaction_count)
        (max (Int.toNat ⌊((txs.map Transaction.priority_fee).sum : ℚ) *
            cfg.fee_percentage⌋)
          ((txs.map Transaction.compute_limit).sum / 1000)) := by
  have hq0 : 0 ≤ ((txs.map Transaction.priority_fee).sum : ℚ) * cfg.fee_percentage :=
    mul_nonneg (by positivity) hpct
  have hfl : ⌊((txs.map Transaction.priority_fee).sum : ℚ) * cfg.fee_percentage⌋ <
      (u64Size : ℤ) := by
    rw [Int.floor_lt]
    push_cast
    exact_mod_cast hprod
  have hcast : f64AsU64 (((txs.map Transaction.priority_fee).sum : ℚ) *
      cfg.fee_percentage) =
      Int.toNat ⌊((txs.map Transaction.priority_fee).sum : ℚ) * cfg.fee_percentage⌋ := by
    unfold f64AsU64
    rw [if_neg (not_lt.mpr hq0)]
    have hle : Int.toNat ⌊((txs.map Transaction.priority_fee).sum : ℚ) *
        cfg.fee_percentage⌋ ≤ u64Size - 1 := by omega
    exact min_eq_left hle
  simp only [calculate_bundle_fee]
  rw [calculate_total_priority_fees_eq b txs htx hpf,
    calculate_compute_fee_eq b txs htx hcu, Nat.mod_eq_of_lt hbase, hcast]

/-- C1 witness: concrete scenario 1 evaluates to a tier-1 required fee of
exactly 5000 lamports. -/
theorem calculate_bundle_fee_tier1_max_witness :
    calculate_bundle_fee PluginConfig.defaultConfig bundle1 = 5000 := by
  have h5 : (List.map Transaction.priority_fee [tx1]).sum = 5000 := by decide
  have hpq : ((List.map Transaction.priority_fee [tx1]).sum : ℚ) = 5000 := by
    rw [h5]; norm_num
  rw [calculate_bundle_fee_tier1_max PluginConfig.defaultConfig bundle1 [tx1] rfl
    (by norm_num [PluginConfig.defaultConfig, f32_0_001]) (by decide) (by decide)
    (by decide)
    (by rw [hpq]; norm_num [PluginConfig.defaultConfig, f32_0_001, u64Size])]
  have hfl : ⌊((List.map Transaction.priority_fee [tx1]).sum : ℚ) *
      PluginConfig.defaultConfig.fee_percentage⌋ = 5 := by
    rw [hpq, Int.floor_eq_iff]
    constructor <;> norm_num [PluginConfig.defaultConfig, f32_0_001]
  rw [hfl]
  decide

/-- C2 counterexample: `bundle101` passes structural validation
(`validate_bundle` = SUCCESS) and offers strictly less than the tier-1
required fee, yet `process_bundle` rejects it with ERROR_INVALID_BUNDLE
(the max_bundle_size gate fires first), not ERROR_INSUFFICIENT_FEE — so the
claimed equivalence is false as stated. -/
theorem insufficient_fee_iff_counterexample :
    validate_bundle 1000 bundle101 = SUCCESS ∧
    bundle101.metadata.plugin_fees <
      calculate_bundle_fee PluginState.defaultState.config bundle101 ∧
    (process_bundle 1000 bundle101 PluginState.defaultState).1 ≠
      ERROR_INSUFFICIENT_FEE ∧
    (process_bundle 1000 bundle101 PluginState.defaultState).1 =
      ERROR_INVALID_BUNDLE := by
  refine ⟨by decide, ?_, by decide, by decide⟩
  have hb : calculate_bundle_fee PluginState.defaultState.config bundle101 =
      max ((101 : Nat) * 5000 % u64Size)
        (max (f64AsU64 ((calculate_total_priority_fees bundle101 : ℚ) *
          PluginState.defaultState.config.fee_percentage))
          (calculate_compute_fee bundle101)) := by
    simp only [calculate_bundle_fee]
    norm_num [PluginState.defaultState, PluginConfig.defaultConfig, bundle101]
  rw [hb]
  have h1 : (101 : Nat) * 5000 % u64Size = 505000 := by decide
  rw [h1]
  show bundle101.metadata.plugin_fees < _
  have : bundle101.metadata.plugin_fees = 0 := rfl
  omega

/-- C2 (amended): for every bundle that passes structural validation AND the
max_bundle_size gate, tier-1 processing rejects with InsufficientFee exactly
when plugin_fees < required fee; offering exactly the required fee is
accepted (boundary inclusive), and on the insufficient-fee rejection the
shared state is returned unchanged. On the oracle path (injection points
present, fetch succeeded, prices fresh and confident), the same boundary
holds against the tier-2 fee. -/
theorem insufficient_fee_iff_amended (now : Int) (b : TransactionBundle)
    (st : PluginState)
    (hv : validate_bundle now b = SUCCESS)
    (hsize : b.transaction_count ≤ st.config.max_bundle_size) :
    ((process_bundle now b st).1 = ERROR_INSUFFICIENT_FEE ↔
      b.metadata.plugin_fees < calculate_bundle_fee st.config b) ∧
    (b.metadata.plugin_fees < calculate_bundle_fee st.config b →
      process_bundle now b st = (ERROR_INSUFFICIENT_FEE, st)) ∧
    (b.metadata.plugin_fees = calculate_bundle_fee st.config b →
      (process_bundle now b st).1 = SUCCESS) ∧
    (∀ env : OracleEnv, extract_price_injection_points b ≠ [] →
      env.fetchResult = SUCCESS →
      checkInjectionPoints env (extract_price_injection_points b) = none →
      ((process_oracle_enabled_bundle env b st).1 = ERROR_INSUFFICIENT_FEE ↔
        b.metadata.plugin_fees <
          (calculate_bundle_fee st.config b +
            calculate_oracle_processing_fee (extract_price_injection_points b)) %
            u64Size)) := by
  have horacle : ∀ env : OracleEnv, extract_price_injection_points b ≠ [] →
      env.fetchResult = SUCCESS →
      checkInjectionPoints env (extract_price_injection_points b) = none →
      ((process_oracle_enabled_bundle env b st).1 = ERROR_INSUFFICIENT_FEE ↔
        b.metadata.plugin_fees <
          (calculate_bundle_fee st.config b +
            calculate_oracle_processing_fee (extract_price_injection_points b)) %
            u64Size) := by
    intro env hpts hfetch hcheck
    have hne : ¬ (extract_price_injection_points b).isEmpty = true := by
      simp [List.isEmpty_iff, hpts]
    have hnf : ¬ env.fetchResult ≠ SUCCESS := by simp [hfetch]
    by_cases hfee : b.metadata.plugin_fees <
        (calculate_bundle_fee st.config b +
          calculate_oracle_processing_fee (extract_price_injection_points b)) %
          u64Size
    · have hres : process_oracle_enabled_bundle env b st =
          (ERROR_INSUFFICIENT_FEE, st) := by
        simp only [process_oracle_enabled_bundle]
        rw [if_neg hne, if_neg hnf, hcheck, if_pos hfee]
      rw [hres]
      exact iff_of_true rfl hfee
    · have hinj := injectOraclePrices_of_check env _ hcheck
      have hres : process_oracle_enabled_bundle env b st =
          (SUCCESS,
            { st with
              bundles_processed := (st.bundles_processed + 1) % u64Size
              total_fees_collected :=
                (st.total_fees_collected + b.metadata.plugin_fees) % u64Size }) := by
        simp only [process_oracle_enabled_bundle]
        rw [if_neg hne, if_neg hnf, hcheck, if_neg hfee, hinj]
      rw [hres]
      exact iff_of_false (show SUCCESS ≠ ERROR_INSUFFICIENT_FEE by decide) hfee
  by_cases hlt : b.metadata.plugin_fees < calculate_bundle_fee st.config b
  · have hres : process_bundle now b st = (ERROR_INSUFFICIENT_FEE, st) := by
      simp only [process_bundle]
      rw [hv, if_neg (by simp), if_neg (by omega), if_pos hlt]
    refine ⟨?_, fun _ => hres, ?_, horacle⟩
    · rw [hres]
      exact iff_of_true rfl hlt
    · intro heq
      omega
  · have hres : (process_bundle now b st).1 = SUCCESS := by
      simp only [process_bundle]
      rw [hv, if_neg (by simp), if_neg (by omega), if_neg hlt]
    refine ⟨?_, fun h => absurd h hlt, fun _ => hres, horacle⟩
    rw [hres]
    exact iff_of_false (by decide) hlt

/-- C2 witness: the amended boundary theorem instantiated at concrete
scenario 1 (valid one-transaction bundle under the default configuration). -/
theorem insufficient_fee_iff_amended_witness :
    ((process_bundle 1000 bundle1 PluginState.defaultState).1 =
        ERROR_INSUFFICIENT_FEE ↔
      bundle1.metadata.plugin_fees <
        calculate_bundle_fee PluginState.defaultState.config bundle1) ∧
    (bundle1.metadata.plugin_fees <
        calculate_bundle_fee PluginState.defaultState.config bundle1 →
      process_bundle 1000 bundle1 PluginState.defaultState =
        (ERROR_INSUFFICIENT_FEE, PluginState.defaultState)) ∧
    (bundle1.metadata.plugin_fees =
        calculate_bundle_fee PluginState.defaultState.config bundle1 →
      (process_bundle 1000 bundle1 PluginState.defaultState).1 = SUCCESS) ∧
    (∀ env : OracleEnv, extract_price_injection_points bundle1 ≠ [] →
      env.fetchResult = SUCCESS →
      checkInjectionPoints env (extract_price_injection_points bundle1) = none →
      ((process_oracle_enabled_bundle env bundle1 PluginState.defaultState).1 =
          ERROR_INSUFFICIENT_FEE ↔
        bundle1.metadata.plugin_fees <
          (calculate_bundle_fee PluginState.defaultState.config bundle1 +
            calculate_oracle_processing_fee
              (extract_price_injection_points bundle1)) % u64Size)) :=
  insufficient_fee_iff_amended 1000 bundle1 PluginState.defaultState
    (by decide) (by decide)

/-- C3 counterexample: a rejected bundle (here: empty) leaves the
bundles-processed counter untouched, refuting the claim that every decision
increments it by one. -/
theorem bundles_processed_counterexample :
    (process_bundle_forwarding 1000 50 "Processing failed at 1000" emptyBundle
        PluginState.defaultState).1 ≠ SUCCESS ∧
    (process_bundle_forwarding 1000 50 "Processing failed at 1000" emptyBundle
        PluginState.defaultState).2.bundles_processed = 0 ∧
    (process_bundle_forwarding 1000 50 "Processing failed at 1000" emptyBundle
        PluginState.defaultState).2.bundles_processed ≠
      PluginState.defaultState.bundles_processed + 1 := by
  refine ⟨by decide, by decide, by decide⟩

/-- The exact f64 product 5000 × 0.001f32 truncates to 5 lamports. -/
theorem f64AsU64_5000_pct : f64AsU64 ((5000 : ℚ) * f32_0_001) = 5 := by
  unfold f64AsU64 f32_0_001
  rw [if_neg (by norm_num)]
  have hf : ⌊(5000 : ℚ) * ((8589935 : ℚ) / 2 ^ 33)⌋ = 5 := by
    rw [Int.floor_eq_iff]
    constructor <;> norm_num
  rw [hf]
  decide

/-- Concrete tier-1 fee of `bundle1` under the default configuration. -/
theorem fee_bundle1 :
    calculate_bundle_fee PluginState.defaultState.config bundle1 = 5000 := by
  simp only [calculate_bundle_fee]
  have h1 : calculate_total_priority_fees bundle1 = 5000 := by decide
  have h2 : calculate_compute_fee bundle1 = 200 := by decide
  have h3 : PluginState.defaultState.config.min_fee_lamports *
      bundle1.transaction_count % u64Size = 5000 := by decide
  have h4 : PluginState.defaultState.config.fee_percentage = f32_0_001 := rfl
  rw [h1, h2, h3, h4, (by norm_num : (((5000 : Nat)) : ℚ) = (5000 : ℚ)),
    f64AsU64_5000_pct]
  decide

/-- Concrete scenario 1 is accepted by tier-1 processing. -/
theorem process_bundle1_success :
    (process_bundle 1000 bundle1 PluginState.defaultState).1 = SUCCESS := by
  simp only [process_bundle]
  rw [(by decide : validate_bundle 1000 bundle1 = SUCCESS), if_neg (by simp),
    if_neg (by decide), fee_bundle1, if_neg (by decide)]

/-! ## Shared concrete oracle evaluations -/

/-- Age 5 seconds and ratio 0.05 percent score 100. -/
theorem score_pGood : calculate_price_confidence_score pGood 1000 = 100 := by
  unfold calculate_price_confidence_score confidenceRatio pGood
  norm_num

/-- Age 300 seconds and ratio 0.05 percent score (20 + 100) / 2 = 60. -/
theorem score_pOld : calculate_price_confidence_score pOld 1000 = 60 := by
  unfold calculate_price_confidence_score confidenceRatio pOld
  norm_num

/-- Concrete tier-1 fee of the oracle bundle. -/
theorem fee_oBundle :
    calculate_bundle_fee PluginState.defaultState.config oBundle = 5000 := by
  simp only [calculate_bundle_fee]
  have h1 : calculate_total_priority_fees oBundle = 5000 := by decide
  have h2 : calculate_compute_fee oBundle = 200 := by decide
  have h3 : PluginState.defaultState.config.min_fee_lamports *
      oBundle.transaction_count % u64Size = 5000 := by decide
  have h4 : PluginState.defaultState.config.fee_percentage = f32_0_001 := rfl
  rw [h1, h2, h3, h4, (by norm_num : (((5000 : Nat)) : ℚ) = (5000 : ℚ)),
    f64AsU64_5000_pct]
  decide

/-- Concrete tier-1 fee of the low-fee oracle bundle (same transactions). -/
theorem fee_oBundleLow :
    calculate_bundle_fee PluginState.defaultState.config oBundleLow = 5000 := by
  simp only [calculate_bundle_fee]
  have h1 : calculate_total_priority_fees oBundleLow = 5000 := by decide
  have h2 : calculate_compute_fee oBundleLow = 200 := by decide
  have h3 : PluginState.defaultState.config.min_fee_lamports *
      oBundleLow.transaction_count % u64Size = 5000 := by decide
  have h4 : PluginState.defaultState.config.fee_percentage = f32_0_001 := rfl
  rw [h1, h2, h3, h4, (by norm_num : (((5000 : Nat)) : ℚ) = (5000 : ℚ)),
    f64AsU64_5000_pct]
  decide

/-- All oracle checks pass for the fresh, tight price. -/
theorem check_envGood :
    checkInjectionPoints envGood [⟨0, 0, [7], [7]⟩] = none := by
  have hget : get_oracle_price envGood [7] = .ok pGood := by rfl
  have hsc : calculate_price_confidence_score pGood envGood.now = 100 :=
    score_pGood
  simp [checkInjectionPoints, hget, hsc]

/-- The 300-second-old price fails resolution with the staleness error. -/
theorem check_envOld :
    checkInjectionPoints envOld [⟨0, 0, [7], [7]⟩] =
      some ERROR_ORACLE_STALE_PRICE := by
  have hget : get_oracle_price envOld [7] =
      .error ERROR_ORACLE_STALE_PRICE := by rfl
  simp [checkInjectionPoints, hget]

/-- Fresh price, sufficient fee: the oracle pipeline accepts. -/
theorem run_envGood :
    (process_oracle_enabled_bundle envGood oBundle PluginState.defaultState).1 =
      SUCCESS := by
  have hpts : extract_price_injection_points oBundle = [⟨0, 0, [7], [7]⟩] := by
    decide
  have hof : calculate_oracle_processing_fee [⟨0, 0, [7], [7]⟩] = 10000 := by
    decide
  have hinj : injectOraclePrices envGood [⟨0, 0, [7], [7]⟩] = none :=
    injectOraclePrices_of_check envGood _ check_envGood
  simp only [process_oracle_enabled_bundle, hpts]
  rw [if_neg (by decide), if_neg (by decide), check_envGood, fee_oBundle, hof,
    if_neg (by decide), hinj]

/-- Fresh price, one lamport short: the oracle pipeline reaches the fee
check and rejects with InsufficientFee. -/
theorem run_envGoodLow :
    (process_oracle_enabled_bundle envGood oBundleLow
        PluginState.defaultState).1 = ERROR_INSUFFICIENT_FEE := by
  have hpts : extract_price_injection_points oBundleLow =
      [⟨0, 0, [7], [7]⟩] := by decide
  have hof : calculate_oracle_processing_fee [⟨0, 0, [7], [7]⟩] = 10000 := by
    decide
  simp only [process_oracle_enabled_bundle, hpts]
  rw [if_neg (by decide), if_neg (by decide), check_envGood, fee_oBundleLow,
    hof, if_pos (by decide)]

/-- Stale price: the oracle pipeline rejects with OracleStalePrice. -/
theorem run_envOld :
    (process_oracle_enabled_bundle envOld oBundle PluginState.defaultState).1 =
      ERROR_ORACLE_STALE_PRICE := by
  have hpts : extract_price_injection_points oBundle = [⟨0, 0, [7], [7]⟩] := by
    decide
  simp only [process_oracle_enabled_bundle, hpts]
  rw [if_neg (by decide), if_neg (by decide), check_envOld]

/-- C4 counterexample: at price = 0 the claimed formula (interval score
treated as 100) gives 100, but the code sets the confidence ratio to 100
percent, giving interval score 30 and total score 65. -/
theorem confidence_score_price_zero_counterexample :
    claimC4Score ⟨0, 0, 0, 0⟩ 0 = 100 ∧
    calculate_price_confidence_score ⟨0, 0, 0, 0⟩ 0 = 65 ∧
    calculate_price_confidence_score ⟨0, 0, 0, 0⟩ 0 ≠ claimC4Score ⟨0, 0, 0, 0⟩ 0 := by
  have h1 : claimC4Score ⟨0, 0, 0, 0⟩ 0 = 100 := by
    unfold claimC4Score
    norm_num
  have h2 : calculate_price_confidence_score ⟨0, 0, 0, 0⟩ 0 = 65 := by
    unfold calculate_price_confidence_score confidenceRatio
    norm_num
  exact ⟨h1, h2, by rw [h1, h2]; decide⟩

/-- C4 (amended): for every PriceData and evaluation time,
`calculate_price_confidence_score` returns (age_score + interval_score) / 2
with age thresholds 10/30/60 seconds and interval thresholds
0.1/0.5/1 percent of confidence/|price| — except that price = 0 is treated
as a 100-percent ratio, hence interval score 30. -/
theorem confidence_score_formula (p : PriceData) (t : Int) :
    calculate_price_confidence_score p t = claimC4AmendedScore p t := by
  unfold calculate_price_confidence_score claimC4AmendedScore confidenceRatio
  by_cases hp : p.price = 0
  · simp only [hp]
    norm_num
    split_ifs <;> norm_num
  · simp only [if_neg hp]
    have e1 : ((p.conf : ℚ) / |(p.price : ℚ)| * 100 < 1 / 10) =
        ((p.conf : ℚ) / |(p.price : ℚ)| < 1 / 1000) := by
      apply propext
      constructor <;> intro h <;> linarith
    have e2 : ((p.conf : ℚ) / |(p.price : ℚ)| * 100 < 1 / 2) =
        ((p.conf : ℚ) / |(p.price : ℚ)| < 5 / 1000) := by
      apply propext
      constructor <;> intro h <;> linarith
    have e3 : ((p.conf : ℚ) / |(p.price : ℚ)| * 100 < 1) =
        ((p.conf : ℚ) / |(p.price : ℚ)| < 1 / 100) := by
      apply propext
      constructor <;> intro h <;> linarith
    simp only [e1, e2, e3]
    split_ifs <;> norm_num

/-- C5 counterexample: at age 300 seconds with ratio 0.05 percent the
confidence score is (20 + 100) / 2 = 60, not below 30. -/
theorem stale_score_counterexample :
    calculate_price_confidence_score pOld 1000 = 60 ∧
    ¬ calculate_price_confidence_score pOld 1000 < 30 := by
  refine ⟨score_pOld, ?_⟩
  rw [score_pOld]
  decide

/-- C5 (amended): age 5 seconds and ratio 0.05 percent score 100 and the
pipeline proceeds to the fee check (accepting with sufficient fee,
rejecting InsufficientFee one lamport short); at age 300 seconds the score
would be 60, but the bundle is rejected with OracleStalePrice anyway
because get_oracle_price treats prices older than max_price_age_seconds
(30) as stale. -/
theorem oracle_stale_scenario :
    calculate_price_confidence_score pGood 1000 = 100 ∧
    (process_oracle_enabled_bundle envGood oBundle PluginState.defaultState).1 =
      SUCCESS ∧
    (process_oracle_enabled_bundle envGood oBundleLow
        PluginState.defaultState).1 = ERROR_INSUFFICIENT_FEE ∧
    get_oracle_price envOld [7] = .error ERROR_ORACLE_STALE_PRICE ∧
    calculate_price_confidence_score pOld 1000 = 60 ∧
    (process_oracle_enabled_bundle envOld oBundle PluginState.defaultState).1 =
      ERROR_ORACLE_STALE_PRICE :=
  ⟨score_pGood, run_envGood, run_envGoodLow, by rfl, score_pOld, run_envOld⟩

/-- C6: for every bundle with n injection points (absent u64 overflow), the
tier-2 required fee returned by `get_oracle_fee_estimate` equals the tier-1
fee plus n × 10000 + max(0, n − 5) × 2000, and with at least one injection
point tier 2 dominates tier 1. -/
theorem oracle_fee_additive (cfg : PluginConfig) (b : TransactionBundle)
    (h1 : (extract_price_injection_points b).length * 10000 +
        ((extract_price_injection_points b).length - 5) * 2000 < u64Size)
    (h2 : calculate_bundle_fee cfg b +
        calculate_oracle_processing_fee (extract_price_injection_points b) <
          u64Size) :
    get_oracle_fee_estimate cfg b =
      calculate_bundle_fee cfg b +
        ((extract_price_injection_points b).length * 10000 +
          ((extract_price_injection_points b).length - 5) * 2000) ∧
    (1 ≤ (extract_price_injection_points b).length →
      calculate_bundle_fee cfg b ≤ get_oracle_fee_estimate cfg b) := by
  have hfee : calculate_oracle_processing_fee (extract_price_injection_points b) =
      (extract_price_injection_points b).length * 10000 +
        ((extract_price_injection_points b).length - 5) * 2000 := by
    simp only [calculate_oracle_processing_fee]
    have ha : (extract_price_injection_points b).length * 10000 < u64Size := by
      omega
    split_ifs with hgt
    · have hb : ((extract_price_injection_points b).length - 5) * 2000 <
          u64Size := by omega
      rw [Nat.mod_eq_of_lt ha, Nat.mod_eq_of_lt hb, Nat.mod_eq_of_lt h1]
    · have h5 : (extract_price_injection_points b).length - 5 = 0 := by omega
      rw [h5, Nat.mod_eq_of_lt ha, Nat.add_zero, Nat.mod_eq_of_lt ha]
  have hmain : get_oracle_fee_estimate cfg b =
      calculate_bundle_fee cfg b +
        ((extract_price_injection_points b).length * 10000 +
          ((extract_price_injection_points b).length - 5) * 2000) := by
    simp only [get_oracle_fee_estimate]
    rw [Nat.mod_eq_of_lt h2, hfee]
  exact ⟨hmain, fun _ => by rw [hmain]; omega⟩

/-- C6 witness: the oracle bundle has one injection point, so its tier-2
fee is 5000 + 10000 = 15000 ≥ 5000. -/
theorem oracle_fee_additive_witness :
    get_oracle_fee_estimate PluginState.defaultState.config oBundle =
      calculate_bundle_fee PluginState.defaultState.config oBundle +
        ((extract_price_injection_points oBundle).length * 10000 +
          ((extract_price_injection_points oBundle).length - 5) * 2000) ∧
    (1 ≤ (extract_price_injection_points oBundle).length →
      calculate_bundle_fee PluginState.defaultState.config oBundle ≤
        get_oracle_fee_estimate PluginState.defaultState.config oBundle) := by
  refine oracle_fee_additive PluginState.defaultState.config oBundle
    (by decide) ?_
  rw [fee_oBundle, (by decide :
    calculate_oracle_processing_fee (extract_price_injection_points oBundle) =
      10000)]
  decide

/-- C7: under a configuration requiring KYC, the institutional sequencer
rejects any bundle with more than 50 transactions with the institutional
compliance code regardless of its fees or risk exposure, and rejects a
bundle offering fewer than 20000 lamports at this compliance step. -/
theorem institutional_compliance_checks (cfg : InstitutionalConfig)
    (b : TransactionBundle) (l : List Transaction)
    (htx : b.transactions = some l)
    (hkyc : cfg.compliance_requirements.kyc_required = true) :
    (b.transaction_count > 50 →
      sequence_institutional_bundle (InstitutionalSequencer.new cfg) b =
        ERROR_INSTITUTIONAL_COMPLIANCE) ∧
    (b.transaction_count ≠ 0 → b.transaction_count ≤ 50 →
      b.metadata.plugin_fees < 20000 →
      sequence_institutional_bundle (InstitutionalSequencer.new cfg) b =
        ERROR_INSUFFICIENT_FEE) := by
  have hce : (InstitutionalSequencer.new cfg).compliance_enabled = true := by
    simp [InstitutionalSequencer.new, hkyc]
  constructor
  · intro h50
    have hvc : validate_compliance b = .error ERROR_INSTITUTIONAL_COMPLIANCE := by
      unfold validate_compliance
      rw [if_neg (by rw [htx]; simp; omega), if_pos h50]
    simp only [sequence_institutional_bundle]
    rw [if_pos hce, hvc]
  · intro hne h50 hfees
    have hvc : validate_compliance b = .error ERROR_INSUFFICIENT_FEE := by
      unfold validate_compliance
      rw [if_neg (by rw [htx]; simp; omega), if_neg (by omega), if_pos hfees]
    simp only [sequence_institutional_bundle]
    rw [if_pos hce, hvc]

/-- C7 witness: under the default KYC-requiring institutional configuration,
60 transactions are rejected with the compliance code, and 19999 lamports
are rejected at the compliance step. -/
theorem institutional_compliance_checks_witness :
    sequence_institutional_bundle
        (InstitutionalSequencer.new get_default_institutional_config) b60 =
      ERROR_INSTITUTIONAL_COMPLIANCE ∧
    sequence_institutional_bundle
        (InstitutionalSequencer.new get_default_institutional_config)
        bLowInstFee = ERROR_INSUFFICIENT_FEE :=
  ⟨(institutional_compliance_checks get_default_institutional_config b60 _
      rfl rfl).1 (by decide),
   (institutional_compliance_checks get_default_institutional_config
      bLowInstFee _ rfl rfl).2 (by decide) (by decide) (by decide)⟩

/-- Embeds `validate_bundle` on a nonempty bundle with a reachable transaction
buffer reduces to metadata, attestation and per-transaction checks. -/
theorem validate_bundle_some (now : Int) (b : TransactionBundle)
    (l : List Transaction) (htx : b.transactions = some l)
    (hc : b.transaction_count ≠ 0) :
    validate_bundle now b =
      match validate_metadata now b.metadata with
      | .error _ => ERROR_INVALID_BUNDLE
      | .ok () =>
        match b.attestation with
        | some a =>
          match validateAttestation a with
          | .error _ => ERROR_INVALID_BUNDLE
          | .ok () => validateTxList l
        | none => validateTxList l := by
  unfold validate_bundle
  rw [if_neg hc, htx]

/-- C8: a transaction with compute_limit 0 or above 1,400,000 anywhere in a
reachable bundle makes validation reject the whole bundle with
InvalidBundle; a transaction passing every other check with compute_limit
exactly 1,400,000 is accepted (inclusive boundary). -/
theorem compute_limit_bounds :
    (∀ (now : Int) (b : TransactionBundle) (l : List Transaction)
        (tx : Transaction), b.transactions = some l → tx ∈ l →
      (tx.compute_limit = 0 ∨ tx.compute_limit > 1400000) →
      validate_bundle now b = ERROR_INVALID_BUNDLE) ∧
    (∀ tx : Transaction, tx.signature_count ≠ 0 → tx.signature_count ≤ 8 →
      tx.signatures.isSome → validate_message tx.message = .ok () →
      tx.compute_limit = 1400000 → validate_transaction tx = .ok ()) := by
  constructor
  · intro now b l tx htx hmem hbad
    have htl := validateTxList_bad_compute l tx hmem hbad
    by_cases hc : b.transaction_count = 0
    · unfold validate_bundle
      rw [if_pos hc]
    · rw [validate_bundle_some now b l htx hc]
      split
      · rfl
      · split
        · split
          · rfl
          · exact htl
        · exact htl
  · intro tx h1 h2 h3 hmsg hcl
    rcases Option.isSome_iff_exists.mp h3 with ⟨v, hv⟩
    unfold validate_transaction
    rw [if_neg h1, if_neg (by omega), if_neg (by simp [hv]), hmsg,
      if_neg (by omega), if_neg (by omega)]

/-- C8 witness: concrete scenario 3 (compute_limit 2,000,000) is rejected
with InvalidBundle, and the boundary transaction with compute_limit
1,400,000 validates. -/
theorem compute_limit_bounds_witness :
    validate_bundle 1000 badComputeBundle = ERROR_INVALID_BUNDLE ∧
    validate_transaction tx14 = .ok () :=
  ⟨compute_limit_bounds.1 1000 badComputeBundle [txOverCompute] txOverCompute
      rfl (by decide) (Or.inr (by decide)),
   compute_limit_bounds.2 tx14 (by decide) (by decide) (by decide) (by rfl)
      rfl⟩

/-- C9: tier-1 evaluation is total and returns exactly one code of the
closed set {Success, NullInput, InvalidBundle, InsufficientFee}; the
fee-engine priority-fee summation and the risk-limit notional accumulation
(Σ priority_fee × 1000, wrap-around mod 2^64) are defined and in u64 range
for every input. -/
theorem decision_totality (now : Int) (b : TransactionBundle)
    (st : PluginState) :
    (process_bundle now b st).1 ∈
      [SUCCESS, ERROR_NULL_POINTER, ERROR_INVALID_BUNDLE,
        ERROR_INSUFFICIENT_FEE] ∧
    calculate_total_priority_fees b < u64Size ∧
    riskNotional (bundleTxs b) < u64Size := by
  have hM : 0 < u64Size := by decide
  refine ⟨?_, ?_, ?_⟩
  · simp only [process_bundle]
    split_ifs with c1 c2 c3
    · show validate_bundle now b ∈ _
      rcases validate_bundle_cases now b with h | h | h <;> rw [h] <;> simp
    · simp
    · simp
    · simp
  · unfold calculate_total_priority_fees
    rcases htx : b.transactions with _ | txs
    · exact hM
    · exact foldlWrap_lt _ (fun a tx => Nat.mod_lt _ hM) txs 0 hM
  · unfold riskNotional
    exact foldlWrap_lt _ (fun a tx => Nat.mod_lt _ hM) (bundleTxs b) 0 hM

/-- C10: a bundle that passes structural validation but exceeds the
configured max_bundle_size (default 100) is rejected by
`process_bundle` with InvalidBundle before any fee comparison, the shared
state left unchanged. -/
theorem bundle_size_gate (now : Int) (b : TransactionBundle)
    (st : PluginState)
    (hv : validate_bundle now b = SUCCESS)
    (hsz : st.config.max_bundle_size < b.transaction_count) :
    process_bundle now b st = (ERROR_INVALID_BUNDLE, st) ∧
    PluginConfig.defaultConfig.max_bundle_size = 100 := by
  refine ⟨?_, rfl⟩
  simp only [process_bundle]
  rw [hv, if_neg (by simp), if_pos hsz]

/-- C10 witness: a valid two-transaction bundle under a configuration with
max_bundle_size 1 is rejected with InvalidBundle, state unchanged. -/
theorem bundle_size_gate_witness :
    process_bundle 1000 bundle2 smallState = (ERROR_INVALID_BUNDLE, smallState) ∧
    PluginConfig.defaultConfig.max_bundle_size = 100 :=
  bundle_size_gate 1000 bundle2 smallState (by decide) (by decide)

/-! ## State-update characterization of the V2/V3 pipelines -/

/-- Every resolver failure returned by `get_oracle_price` is a genuine
error code, never SUCCESS. -/
theorem get_oracle_price_error_ne (env : OracleEnv) (id : Bytes) (e : Int)
    (h : get_oracle_price env id = .error e) : e ≠ SUCCESS := by
  unfold get_oracle_price at h
  rcases hc : env.cache id with _ | p <;> rw [hc] at h
  · injection h with h2
    rw [← h2]
    decide
  · have h2 : (if is_price_stale env p = true then
        (Except.error ERROR_ORACLE_STALE_PRICE : Except Int PriceData)
      else Except.ok p) = Except.error e := h
    split_ifs at h2
    injection h2 with h3
    rw [← h3]
    decide

/-- Every error produced by the injection-point check is a genuine error
code, never SUCCESS. -/
theorem checkInjectionPoints_error_ne (env : OracleEnv) :
    ∀ (pts : List PriceInjectionPoint) (e : Int),
      checkInjectionPoints env pts = some e → e ≠ SUCCESS
  | [], _, h => Option.noConfusion h
  | p :: rest, e, h => by
    unfold checkInjectionPoints at h
    rcases hg : get_oracle_price env p.required_price_id with e2 | pd <;>
      rw [hg] at h
    · have h2 : some e2 = some e := h
      injection h2 with h3
      rw [← h3]
      exact get_oracle_price_error_ne env p.required_price_id e2 hg
    · have h2 : (if calculate_price_confidence_score pd env.now < 30 then
          some ERROR_ORACLE_STALE_PRICE else checkInjectionPoints env rest) =
            some e := h
      split_ifs at h2 with hs
      · injection h2 with h3
        rw [← h3]
        decide
      · exact checkInjectionPoints_error_ne env rest e h2

/-- Every error produced by the price-injection loop is a genuine error
code, never SUCCESS. -/
theorem injectOraclePrices_error_ne (env : OracleEnv) :
    ∀ (pts : List PriceInjectionPoint) (e : Int),
      injectOraclePrices env pts = some e → e ≠ SUCCESS
  | [], _, h => Option.noConfusion h
  | p :: rest, e, h => by
    unfold injectOraclePrices at h
    rcases hg : get_oracle_price env p.required_price_id with e2 | pd <;>
      rw [hg] at h
    · have h2 : some e2 = some e := h
      injection h2 with h3
      rw [← h3]
      exact get_oracle_price_error_ne env p.required_price_id e2 hg
    · exact injectOraclePrices_error_ne env rest e h

/-- On accept, the oracle pipeline bumps the counter once and adds the
offered fee once; every reject path leaves the state untouched. -/
theorem process_oracle_enabled_state_update (env : OracleEnv)
    (b : TransactionBundle) (st : PluginState) :
    ((process_oracle_enabled_bundle env b st).1 = SUCCESS →
      (process_oracle_enabled_bundle env b st).2.bundles_processed =
        (st.bundles_processed + 1) % u64Size ∧
      (process_oracle_enabled_bundle env b st).2.total_fees_collected =
        (st.total_fees_collected + b.metadata.plugin_fees) % u64Size) ∧
    ((process_oracle_enabled_bundle env b st).1 ≠ SUCCESS →
      (process_oracle_enabled_bundle env b st).2 = st) := by
  simp only [process_oracle_enabled_bundle]
  split_ifs with hempty hfetch hfee
  · exact process_bundle_state_update env.now b st
  · constructor
    · intro h
      exact absurd h hfetch
    · intro _
      rfl
  · rcases hchk : checkInjectionPoints env (extract_price_injection_points b)
      with _ | ec
    · constructor
      · intro h
        exact absurd h (show ERROR_INSUFFICIENT_FEE ≠ SUCCESS by decide)
      · intro _
        rfl
    · constructor
      · intro h
        exact absurd h
          (checkInjectionPoints_error_ne env
            (extract_price_injection_points b) ec hchk)
      · intro _
        rfl
  · rcases hchk : checkInjectionPoints env (extract_price_injection_points b)
      with _ | ec
    · rcases hinj : injectOraclePrices env (extract_price_injection_points b)
        with _ | e2
      · constructor
        · intro _
          exact ⟨rfl, rfl⟩
        · intro h
          exact absurd rfl h
      · constructor
        · intro h
          exact absurd h
            (injectOraclePrices_error_ne env
              (extract_price_injection_points b) e2 hinj)
        · intro _
          rfl
    · constructor
      · intro h
        exact absurd h
          (checkInjectionPoints_error_ne env
            (extract_price_injection_points b) ec hchk)
      · intro _
        rfl

/-- The same single-update characterization for `process_oracle_bundle`
(validation first, then the oracle pipeline). -/
theorem process_oracle_bundle_state_update (env : OracleEnv)
    (b : TransactionBundle) (st : PluginState) :
    ((process_oracle_bundle env b st).1 = SUCCESS →
      (process_oracle_bundle env b st).2.bundles_processed =
        (st.bundles_processed + 1) % u64Size ∧
      (process_oracle_bundle env b st).2.total_fees_collected =
        (st.total_fees_collected + b.metadata.plugin_fees) % u64Size) ∧
    ((process_oracle_bundle env b st).1 ≠ SUCCESS →
      (process_oracle_bundle env b st).2 = st) := by
  simp only [process_oracle_bundle]
  split_ifs with hv
  · constructor
    · intro h
      exact absurd h hv
    · intro _
      rfl
  · exact process_oracle_enabled_state_update env b st

/-- On accept, the institutional pipeline updates the counter and fees
twice: once in the oracle/tier-1 stage and once more after sequencing. A
bundle rejected before the lower tiers accept leaves the state unchanged;
one accepted by the lower tiers but rejected by the sequencer keeps exactly
the single lower-tier update. -/
theorem process_institutional_state_update (env : OracleEnv)
    (b : TransactionBundle) (st : PluginState) :
    ((process_institutional_bundle env b st).1 = SUCCESS →
      (process_institutional_bundle env b st).2.bundles_processed =
        ((st.bundles_processed + 1) % u64Size + 1) % u64Size ∧
      (process_institutional_bundle env b st).2.total_fees_collected =
        ((st.total_fees_collected + b.metadata.plugin_fees) % u64Size +
          b.metadata.plugin_fees) % u64Size) ∧
    ((process_oracle_bundle env b st).1 ≠ SUCCESS →
      (process_institutional_bundle env b st).2 = st) ∧
    ((process_oracle_bundle env b st).1 = SUCCESS →
      (process_institutional_bundle env b st).1 ≠ SUCCESS →
      (process_institutional_bundle env b st).2.bundles_processed =
        (st.bundles_processed + 1) % u64Size ∧
      (process_institutional_bundle env b st).2.total_fees_collected =
        (st.total_fees_collected + b.metadata.plugin_fees) % u64Size) := by
  have hpo := process_oracle_bundle_state_update env b st
  simp only [process_institutional_bundle]
  rcases hr : process_oracle_bundle env b st with ⟨rc, rst⟩
  rw [hr] at hpo
  dsimp only at hpo ⊢
  by_cases hrc : rc = SUCCESS
  · subst hrc
    rw [if_neg (by simp)]
    rcases hpo.1 rfl with ⟨hb1, hf1⟩
    split_ifs with hseq
    · refine ⟨?_, ?_, ?_⟩
      · intro h
        exact absurd h hseq
      · intro hne
        exact absurd rfl hne
      · intro _ _
        exact ⟨hb1, hf1⟩
    · refine ⟨?_, ?_, ?_⟩
      · intro _
        constructor
        · dsimp only
          rw [hb1]
        · dsimp only
          rw [hf1]
      · intro hne
        exact absurd rfl hne
      · intro _ hne
        exact absurd rfl hne
  · rw [if_pos hrc]
    have hst : rst = st := hpo.2 hrc
    subst hst
    refine ⟨?_, ?_, ?_⟩
    · intro h
      exact absurd h hrc
    · intro _
      rfl
    · intro h _
      exact absurd h hrc

/-- The concrete oracle bundle is accepted end to end by the institutional
pipeline (fresh price, sufficient fee, compliant, within risk limits). -/
theorem run_v3_oBundle :
    (process_institutional_bundle envGood oBundle PluginState.defaultState).1 =
      SUCCESS := by
  have hob : process_oracle_bundle envGood oBundle PluginState.defaultState =
      process_oracle_enabled_bundle envGood oBundle PluginState.defaultState := by
    simp only [process_oracle_bundle]
    rw [(by decide : validate_bundle envGood.now oBundle = SUCCESS),
      if_neg (by simp)]
  simp only [process_institutional_bundle]
  rw [hob, run_envGood, if_neg (by simp),
    (by decide : sequence_institutional_bundle
      (InstitutionalSequencer.new get_default_institutional_config) oBundle =
        SUCCESS),
    if_neg (by simp)]

/-- C3 (amended): on the tier-1 (V1) path, the bundles-processed counter is
incremented by exactly one when and only when the bundle is accepted, with
plugin_fees then added to the cumulative total; rejects leave both
untouched (only the latency average and last-error marker change). On the
V3 institutional path, an accepted bundle increments the counter and adds
plugin_fees twice (once in the oracle/tier-1 stage, once more in
process_institutional_bundle); a bundle rejected before the lower tiers
accept leaves the state unchanged, and one rejected by the institutional
sequencer alone still keeps the single lower-tier update. -/
theorem bundles_processed_update (now : Int) (t : Nat) (e : String)
    (b : TransactionBundle) (st : PluginState) (env : OracleEnv) :
    ((process_bundle_forwarding now t e b st).1 = SUCCESS →
      (process_bundle_forwarding now t e b st).2.bundles_processed =
        (st.bundles_processed + 1) % u64Size ∧
      (process_bundle_forwarding now t e b st).2.total_fees_collected =
        (st.total_fees_collected + b.metadata.plugin_fees) % u64Size) ∧
    ((process_bundle_forwarding now t e b st).1 ≠ SUCCESS →
      (process_bundle_forwarding now t e b st).2.bundles_processed =
        st.bundles_processed ∧
      (process_bundle_forwarding now t e b st).2.total_fees_collected =
        st.total_fees_collected) ∧
    ((process_bundle_v3 env t e b st).1 = SUCCESS →
      (process_bundle_v3 env t e b st).2.bundles_processed =
        ((st.bundles_processed + 1) % u64Size + 1) % u64Size ∧
      (process_bundle_v3 env t e b st).2.total_fees_collected =
        ((st.total_fees_collected + b.metadata.plugin_fees) % u64Size +
          b.metadata.plugin_fees) % u64Size) ∧
    ((process_oracle_bundle env b st).1 ≠ SUCCESS →
      (process_bundle_v3 env t e b st).2.bundles_processed =
        st.bundles_processed ∧
      (process_bundle_v3 env t e b st).2.total_fees_collected =
        st.total_fees_collected) ∧
    ((process_oracle_bundle env b st).1 = SUCCESS →
      (process_bundle_v3 env t e b st).1 ≠ SUCCESS →
      (process_bundle_v3 env t e b st).2.bundles_processed =
        (st.bundles_processed + 1) % u64Size ∧
      (process_bundle_v3 env t e b st).2.total_fees_collected =
        (st.total_fees_collected + b.metadata.plugin_fees) % u64Size) := by
  have hi := process_institutional_state_update env b st
  have hpm := update_processing_metrics_preserves t
    (decide ((process_institutional_bundle env b st).1 = SUCCESS)) e
    (process_institutional_bundle env b st).2
  refine ⟨?_, ?_, ?_, ?_, ?_⟩
  · intro h
    have hp := process_bundle_state_update now b st
    have hm := update_processing_metrics_preserves t
      (decide ((process_bundle now b st).1 = SUCCESS)) e
      (process_bundle now b st).2
    have h2 := hp.1 (by exact h)
    exact ⟨hm.1.trans h2.1, hm.2.1.trans h2.2⟩
  · intro h
    have hp := process_bundle_state_update now b st
    have hm := update_processing_metrics_preserves t
      (decide ((process_bundle now b st).1 = SUCCESS)) e
      (process_bundle now b st).2
    have h2 := hp.2 (by exact h)
    constructor
    · exact hm.1.trans (by rw [h2])
    · exact hm.2.1.trans (by rw [h2])
  · intro h
    have h2 := hi.1 (by exact h)
    exact ⟨hpm.1.trans h2.1, hpm.2.1.trans h2.2⟩
  · intro h
    have h2 := hi.2.1 h
    constructor
    · exact hpm.1.trans (by rw [h2])
    · exact hpm.2.1.trans (by rw [h2])
  · intro h1 h2
    have h3 := hi.2.2 h1 (by exact h2)
    exact ⟨hpm.1.trans h3.1, hpm.2.1.trans h3.2⟩

/-- C3 witness: the accepted V1 bundle takes the counter from 0 to 1
(fees 0 to 15000), and the accepted V3 institutional bundle takes the
counter from 0 to 2 (fees 0 to 40000, the 20000 offered counted twice). -/
theorem bundles_processed_update_witness :
    (process_bundle_forwarding 1000 50 "x" bundle1
        PluginState.defaultState).2.bundles_processed = 1 ∧
    (process_bundle_forwarding 1000 50 "x" bundle1
        PluginState.defaultState).2.total_fees_collected = 15000 ∧
    (process_bundle_v3 envGood 50 "x" oBundle
        PluginState.defaultState).2.bundles_processed = 2 ∧
    (process_bundle_v3 envGood 50 "x" oBundle
        PluginState.defaultState).2.total_fees_collected = 40000 := by
  have h1 := (bundles_processed_update 1000 50 "x" bundle1
    PluginState.defaultState envGood).1 (by exact process_bundle1_success)
  have h3 := (bundles_processed_update 1000 50 "x" oBundle
    PluginState.defaultState envGood).2.2.1 (by exact run_v3_oBundle)
  exact ⟨h1.1.trans (by decide), h1.2.trans (by decide),
    h3.1.trans (by decide), h3.2.trans (by decide)⟩
